import Mathlib

/-!
Verification of the JobHub job-marketplace business logic.

The Python source is shallowly embedded: database tables become lists of
records, SQL SELECT / UPDATE statements become List.find? / List.map over
those lists, Python dict.get with a default becomes Option.getD, and a
column that may be missing or NULL becomes an Option field.  Python ints
are Int, datetimes are Int timestamps (seconds), and the str(...) equality
comparisons of the source are modelled by rendering to String.
-/

/-- A row of the job_postings table (db/models.py, utils/job_management.py).
Columns read via dict.get in the source are Option fields; the id column is
always present. -/
structure Job where
  id : Int
  user_id : Option Int
  hired_count : Option Int
  required_candidates : Option Int
  is_closed : Option Bool
  auto_closed : Option Bool
  status : Option String
  closed_date : Option Int
  deriving Repr, DecidableEq

/-- A row of the applications table (db/models.py, utils/applications.py). -/
structure App where
  id : Int
  job_id : Option Int
  employer_id : Option Int
  applicant_id : Option Int
  status : Option String
  response_message : Option String
  response_date : Option Int
  applied_date : Option Int
  deriving Repr, DecidableEq

/-- The relational store as seen by the job / application managers. -/
structure DB where
  jobs : List Job
  apps : List App
  deriving Repr, DecidableEq

/-- Python str(x) for an int-or-None value: str(None) renders as the text
None, str(n) renders the numeral.  Used where the source compares ids with
str(a) == str(b). -/
def strOfOptInt (x : Option Int) : String :=
  match x with
  | none => "None"
  | some n => toString n

/-- SELECT * FROM job_postings WHERE id=%s, fetchone
(JobPosting.get_by_id in db/models.py): first row with the given id. -/
def getJobById (jobs : List Job) (job_id : Int) : Option Job :=
  jobs.find? (fun j => j.id == job_id)

/-- SELECT * FROM applications WHERE id=%s, fetchone
(Application.get_by_id in db/models.py). -/
def getAppById (apps : List App) (app_id : Int) : Option App :=
  apps.find? (fun a => a.id == app_id)

/-- UPDATE job_postings SET ... WHERE id=%s (JobPosting.update in
db/models.py).  The argument u applies the column assignments of the
update dict to a row; the returned Nat is the cursor rowcount, the number
of matched rows. -/
def JobPosting.update (jobs : List Job) (job_id : Int) (u : Job → Job) :
    List Job × Nat :=
  (jobs.map (fun j => if j.id == job_id then u j else j),
   (jobs.filter (fun j => j.id == job_id)).length)

/-- UPDATE applications SET status=%s, response_message=%s,
response_date=NOW() WHERE id=%s (Application.update_status in
db/models.py); returns the updated table and the rowcount. -/
def Application.update_status (apps : List App) (app_id : Int)
    (status message : String) (now : Int) : List App × Nat :=
  (apps.map (fun a =>
      if a.id == app_id then
        { a with status := some status, response_message := some message,
                 response_date := some now }
      else a),
   (apps.filter (fun a => a.id == app_id)).length)

/-- SELECT * FROM applications WHERE job_id=%s AND applicant_id=%s
(Application.check_existing in db/models.py): SQL equality never matches a
NULL column, hence the comparison with some. -/
def check_existing (apps : List App) (job_id applicant_id : Int) : Option App :=
  apps.find? (fun a => a.job_id == some job_id && a.applicant_id == some applicant_id)

/-- The update_data dict built by update_job_on_acceptance and
accept_application, applied to a job row: hired_count is always set to
new_hired_count, and when the posting fills the auto-close columns are
set as well. -/
def acceptUpdateData (new_hired_count required_candidates now : Int) :
    Job → Job :=
  fun j =>
    if required_candidates ≤ new_hired_count then
      { j with hired_count := some new_hired_count,
               is_closed := some true, auto_closed := some true,
               closed_date := some now }
    else
      { j with hired_count := some new_hired_count }

/-- JobStatusManager.update_job_on_acceptance (utils/applications.py,
lines 57-94): look the job up, require the employer to own it (ids
compared through str), increment hired_count, and auto-close the posting
when the new count reaches required_candidates. -/
def JobStatusManager.update_job_on_acceptance (db : DB)
    (job_id employer_id now : Int) : DB × Bool × String :=
  match getJobById db.jobs job_id with
  | none => (db, false, "Job not found or unauthorized")
  | some job =>
    if strOfOptInt job.user_id != toString employer_id then
      (db, false, "Job not found or unauthorized")
    else
      let current_hired := job.hired_count.getD 0
      let new_hired_count := current_hired + 1
      let required_candidates := job.required_candidates.getD 1
      let upd := acceptUpdateData new_hired_count required_candidates now
      let updated := JobPosting.update db.jobs job_id upd
      let db2 : DB := { db with jobs := updated.1 }
      if 0 < updated.2 then
        if required_candidates ≤ new_hired_count then
          (db2, true, "Job post automatically closed (all " ++
            toString required_candidates ++ " positions filled).")
        else
          (db2, true, toString (required_candidates - new_hired_count) ++
            " more position(s) needed.")
      else
        (db2, false, "Failed to update job status")

/-- JobManager.accept_application (utils/job_management.py, lines 70-106):
first sets the application status to accepted, only then checks that the
job exists and is owned by the employer, and finally repeats the
hired_count / auto-close update inline. -/
def JobManager.accept_application (db : DB)
    (application_id job_id employer_id now : Int) : DB × Bool × String :=
  let statusUpd := Application.update_status db.apps application_id "accepted" "" now
  let db1 : DB := { db with apps := statusUpd.1 }
  if statusUpd.2 == 0 then
    (db1, false, "Failed to update application status")
  else
    match getJobById db1.jobs job_id with
    | none => (db1, false, "Job not found or unauthorized")
    | some job =>
      if strOfOptInt job.user_id != toString employer_id then
        (db1, false, "Job not found or unauthorized")
      else
        let current_hired := job.hired_count.getD 0
        let new_hired_count := current_hired + 1
        let required_candidates := job.required_candidates.getD 1
        let upd := acceptUpdateData new_hired_count required_candidates now
        let updated := JobPosting.update db1.jobs job_id upd
        let db2 : DB := { db1 with jobs := updated.1 }
        if 0 < updated.2 then
          if required_candidates ≤ new_hired_count then
            (db2, true, "Application accepted! Job post automatically closed (all " ++
              toString required_candidates ++ " positions filled).")
          else
            (db2, true, "Application accepted! " ++
              toString (required_candidates - new_hired_count) ++
              " more position(s) needed.")
        else
          (db2, false, "Application accepted but failed to update job status")

/-- JobManager._determine_post_status (utils/job_management.py, lines
55-68): fixed precedence deleted, closed (auto or manual), filled,
partially filled, open.  hired_count and required_candidates are passed in
by the caller exactly as in the source. -/
def JobManager.determine_post_status (post : Job)
    (hired_count required_candidates : Int) : String :=
  if post.status == some "deleted" then "deleted"
  else if post.is_closed.getD false then
    if post.auto_closed.getD false then "auto_closed" else "manually_closed"
  else if required_candidates ≤ hired_count then "filled"
  else if 0 < hired_count then "partially_filled"
  else "open"

/-- can_apply_to_job (db/models.py, lines 591-611). -/
def can_apply_to_job (db : DB) (job_id applicant_id : Int) : Bool × String :=
  match getJobById db.jobs job_id with
  | none => (false, "Job not found")
  | some job =>
    let required := job.required_candidates.getD 1
    let hired := job.hired_count.getD 0
    let is_closed := job.is_closed.getD false
    if is_closed || required ≤ hired then
      (false, "This position has been filled")
    else
      match check_existing db.apps job_id applicant_id with
      | some _ => (false, "You have already applied to this job")
      | none => (true, "Can apply")

/-- The enriched row built by
JobManager.get_employer_posts_with_applications: the post dict updated
with the attached applications and the derived counters. -/
structure PostWithApps where
  post : Job
  applications : List App
  application_count : Nat
  hired_count : Int
  required_candidates : Int
  remaining_slots : Int
  is_closed : Bool
  post_status : String
  deriving Repr, DecidableEq

/-- JobManager.get_employer_posts_with_applications
(utils/job_management.py, lines 12-53): list_by_user filters the table
scan on user_id, deleted posts are dropped unless include_deleted, and
each remaining post gets the applications whose job_id renders (via str)
equal to the post id, plus the derived counters. -/
def JobManager.get_employer_posts_with_applications (db : DB)
    (employer_id : Int) (include_deleted : Bool) : List PostWithApps :=
  let all_posts := db.jobs.filter (fun j => j.user_id == some employer_id)
  let posts :=
    if include_deleted then all_posts
    else all_posts.filter (fun post => !(post.status.getD "active" == "deleted"))
  let all_applications := db.apps
  posts.map (fun post =>
    let job_applications :=
      all_applications.filter (fun a => strOfOptInt a.job_id == toString post.id)
    let required_candidates := post.required_candidates.getD 1
    let hired_count := post.hired_count.getD 0
    let is_closed := post.is_closed.getD false
    let remaining_slots := max 0 (required_candidates - hired_count)
    let post_status := JobManager.determine_post_status post hired_count required_candidates
    { post := post,
      applications := job_applications,
      application_count := job_applications.length,
      hired_count := hired_count,
      required_candidates := required_candidates,
      remaining_slots := remaining_slots,
      is_closed := is_closed,
      post_status := post_status })

/-- ApplicationDataValidator.validate_status_update (utils/applications.py,
lines 16-20): the id must be a positive int and the status one of pending,
accepted, rejected. -/
def validate_status_update (app_id : Int) (status : String) : Bool :=
  decide (0 < app_id) && ["pending", "accepted", "rejected"].contains status

/-- The input dict of save_application; the three id fields are required,
status and applied_date are optional. -/
structure AppData where
  job_id : Option Int
  employer_id : Option Int
  applicant_id : Option Int
  status : Option String
  applied_date : Option Int
  deriving Repr, DecidableEq

/-- ApplicationDataValidator.validate_application_data
(utils/applications.py, lines 10-14): job_id, employer_id and
applicant_id must be present and not None. -/
def validate_application_data (d : AppData) : Bool :=
  d.job_id.isSome && d.employer_id.isSome && d.applicant_id.isSome

/-- ApplicationDataProcessor.sanitize_application_data
(utils/applications.py, lines 40-49): string values are stripped of
surrounding whitespace, other values pass through. -/
def sanitize_application_data (d : AppData) : AppData :=
  { d with status := d.status.map String.trim }

/-- ApplicationDataProcessor.prepare_application_data
(utils/applications.py, lines 32-38): setdefault of status to pending and
of applied_date to the current time. -/
def prepare_application_data (d : AppData) (now : Int) : AppData :=
  let d1 := if d.status.isNone then { d with status := some "pending" } else d
  if d1.applied_date.isNone then { d1 with applied_date := some now } else d1

/-- ApplicationService.save_application (utils/applications.py, lines
153-172): validate, sanitize, fill defaults, then INSERT; new_id models
the AUTO_INCREMENT id the INSERT returns. -/
def ApplicationService.save_application (db : DB) (d : AppData)
    (now new_id : Int) : DB × Bool :=
  if !(validate_application_data d) then (db, false)
  else
    let processed := prepare_application_data (sanitize_application_data d) now
    let row : App :=
      { id := new_id, job_id := processed.job_id,
        employer_id := processed.employer_id,
        applicant_id := processed.applicant_id,
        status := processed.status,
        response_message := none, response_date := none,
        applied_date := processed.applied_date }
    ({ db with apps := db.apps ++ [row] }, decide (0 < new_id))

/-- ApplicationService.update_status (utils/applications.py, lines
174-189): returns False without touching the table when validation fails,
otherwise runs the status UPDATE and reports rowcount > 0. -/
def ApplicationService.update_status (db : DB) (app_id : Int)
    (status message : String) (now : Int) : DB × Bool :=
  if !(validate_status_update app_id status) then (db, false)
  else
    let updated := Application.update_status db.apps app_id status message now
    ({ db with apps := updated.1 }, decide (0 < updated.2))

/-- Python truthiness of an int-or-None value: None and 0 are falsy. -/
def truthyOptInt (x : Option Int) : Bool :=
  match x with
  | none => false
  | some n => n != 0

/-- Python x or y on int-or-None values: the first operand when truthy,
the second otherwise. -/
def pyOrOptInt (a b : Option Int) : Option Int :=
  if truthyOptInt a then a else b

/-- ApplicationDataValidator.validate_job_update_params
(utils/applications.py, lines 22-27): app_id and job_id must be positive
ints and employer_id must not be None. -/
def validate_job_update_params (app_id : Int)
    (job_id employer_id : Option Int) : Bool :=
  decide (0 < app_id) &&
  (match job_id with
   | some j => decide (0 < j)
   | none => false) &&
  employer_id.isSome

/-- ApplicationService.accept_application (utils/applications.py, lines
191-233): when job_id or employer_id is falsy they are fetched from the
application row; after validation the application status is set to
accepted and then update_job_on_acceptance runs.  The congratulations
session-state flag of step 3 does not touch the database and is not
modelled.  The inner match is reached only with job_id and employer_id
present, which validate_job_update_params guarantees. -/
def ApplicationService.accept_application (db : DB) (app_id : Int)
    (job_id employer_id : Option Int) (now : Int) : DB × Bool × String :=
  let fetched : Option (Option Int × Option Int) :=
    if !truthyOptInt job_id || !truthyOptInt employer_id then
      match getAppById db.apps app_id with
      | none => none
      | some app =>
        some (pyOrOptInt job_id app.job_id, pyOrOptInt employer_id app.employer_id)
    else some (job_id, employer_id)
  match fetched with
  | none => (db, false, "Application not found")
  | some (jid, eid) =>
    if !(validate_job_update_params app_id jid eid) then
      (db, false, "Invalid parameters")
    else
      let statusRes := ApplicationService.update_status db app_id "accepted" "" now
      if !statusRes.2 then
        (statusRes.1, false, "Failed to update application status")
      else
        match jid, eid with
        | some j, some e =>
          let jobRes := JobStatusManager.update_job_on_acceptance statusRes.1 j e now
          if jobRes.2.1 then
            (jobRes.1, true, "Application accepted! " ++ jobRes.2.2)
          else
            (jobRes.1, false, "Application accepted but " ++ jobRes.2.2)
        | _, _ => (statusRes.1, false, "Invalid parameters")

/-- A datetime-valued field of a job_offers row as the Python code sees
it: absent (key missing), invalid (present but falsy or not parseable by
datetime.fromisoformat), or a parseable timestamp. -/
inductive TimeField where
  | absent
  | invalid
  | valid (t : Int)
  deriving Repr, DecidableEq

/-- A job offer as handled by utils/offers.py and
screens/job_dashboard.py; only the fields the claims touch are kept. -/
structure Offer where
  status : Option String
  offered_date : TimeField
  expires_at : TimeField
  deriving Repr, DecidableEq

/-- OfferDataProcessor.add_default_fields (utils/offers.py, lines 66-83):
status defaults to pending, offered_date to now, expires_at to now plus
24 hours; each only when the key is absent.  The source calls
datetime.now() separately for each default; both calls are the single
creation instant now here. -/
def OfferDataProcessor.add_default_fields (o : Offer) (now : Int) : Offer :=
  let o1 := if o.status.isNone then { o with status := some "pending" } else o
  let o2 :=
    if o1.offered_date == TimeField.absent then
      { o1 with offered_date := TimeField.valid now }
    else o1
  if o2.expires_at == TimeField.absent then
    { o2 with expires_at := TimeField.valid (now + 24 * 3600) }
  else o2

/-- JobOfferManager.is_offer_active (screens/job_dashboard.py, lines
236-255): compare now against expires_at when it is present and
parseable, otherwise fall back to offered_date plus 24 hours, otherwise
treat the offer as expired. -/
def JobOfferManager.is_offer_active (o : Offer) (now : Int) : Bool :=
  match o.expires_at with
  | TimeField.valid expires => decide (now ≤ expires)
  | _ =>
    match o.offered_date with
    | TimeField.valid base => decide (now ≤ base + 24 * 3600)
    | _ => false

/-- A row of the users table as consumed by utils/auth.py; name and phone
are read through dict.get with a default and so may be missing. -/
structure UserR where
  id : Int
  name : Option String
  phone : Option String
  password : String
  role : String
  deriving Repr, DecidableEq

/-- Python str.lower() as used by the user matcher, mapping the
character-level lower-casing over the string (String.toLower is defined
the same way but through a non-reducing loop). -/
def pyLower (s : String) : String :=
  String.mk (s.data.map Char.toLower)

/-- AuthenticationValidator.validate_credentials (utils/auth.py, lines
11-18): all three inputs truthy and the role one of job or hire. -/
def validate_credentials (identifier password role : String) : Bool :=
  !(identifier == "") && !(password == "") && !(role == "") &&
  (role == "job" || role == "hire")

/-- UserMatcher.match_user_by_identifier (utils/auth.py, lines 30-39):
first user whose lower-cased name equals the lower-cased identifier or
whose phone equals the identifier exactly. -/
def match_user_by_identifier (users : List UserR) (identifier : String) :
    Option UserR :=
  users.find? (fun u =>
    pyLower identifier == pyLower (u.name.getD "") ||
    identifier == u.phone.getD "")

/-- UserRepository.find_users_by_role_and_password (utils/auth.py, lines
73-79): SELECT * FROM users WHERE role=%s AND password=%s. -/
def find_users_by_role_and_password (users : List UserR)
    (role password : String) : List UserR :=
  users.filter (fun u => u.role == role && u.password == password)

/-- AuthenticationService.authenticate_user (utils/auth.py, lines
102-117), also exposed as the public authenticate helper. -/
def authenticate (users : List UserR)
    (identifier password role : String) : Option UserR :=
  if !(validate_credentials identifier password role) then none
  else
    let matched := find_users_by_role_and_password users role password
    if matched.isEmpty then none
    else match_user_by_identifier matched identifier

/-- PhoneValidator.validate_phone (utils/validation.py, lines 9-28):
reject falsy input, delete every non-digit character, accept exactly when
ten digits remain. -/
def validate_phone (phone : String) : Bool :=
  if phone == "" then false
  else (phone.toList.filter Char.isDigit).length == 10

/-- AadhaarValidator.validate_aadhaar (utils/validation.py, lines 34-53):
reject falsy input, delete every non-digit character, accept exactly when
twelve digits remain. -/
def validate_aadhaar (aadhaar : String) : Bool :=
  if aadhaar == "" then false
  else (aadhaar.toList.filter Char.isDigit).length == 12

/-!
Helper lemmas about the embedded SQL primitives.
-/

/-- Point updates that rewrite exactly the rows matching a predicate, and
preserve it, commute with taking the first match. -/
theorem findq_map_upd {α : Type} (p : α → Bool) (u : α → α)
    (hu : ∀ x, p x = true → p (u x) = true) :
    ∀ l : List α,
      (l.map fun x => if p x then u x else x).find? p = (l.find? p).map u := by
  intro l
  induction l with
  | nil => rfl
  | cons a t ih =>
    by_cases h : p a = true
    · simp [List.find?_cons, h, hu a h]
    · have h0 : p a = false := by simpa using h
      simp [List.find?_cons, h0, ih]

/-- A successful lookup means the WHERE clause matches at least one row,
so the cursor rowcount of the corresponding UPDATE is positive. -/
theorem filter_length_pos_of_findq {α : Type} (p : α → Bool) (l : List α)
    (a : α) (h : l.find? p = some a) : 0 < (l.filter p).length := by
  have hp := List.find?_some h
  have hm := List.mem_of_find?_eq_some h
  have hmem : a ∈ l.filter p := List.mem_filter.mpr ⟨hm, hp⟩
  exact List.length_pos.mpr (List.ne_nil_of_mem hmem)

/-- The acceptance update dict never touches the id, owner or requirement
columns and always sets hired_count to the new value. -/
theorem acceptUpdateData_fields (n r now : Int) (j : Job) :
    (acceptUpdateData n r now j).id = j.id ∧
    (acceptUpdateData n r now j).user_id = j.user_id ∧
    (acceptUpdateData n r now j).required_candidates = j.required_candidates ∧
    (acceptUpdateData n r now j).hired_count = some n := by
  unfold acceptUpdateData
  split <;> exact ⟨rfl, rfl, rfl, rfl⟩

/-- Looking a job up after the UPDATE of JobPosting.update returns the
updated row, provided the update keeps the id column. -/
theorem getJobById_after_update (jobs : List Job) (job_id : Int)
    (u : Job → Job) (hid : ∀ j, (u j).id = j.id) :
    getJobById (JobPosting.update jobs job_id u).1 job_id =
      (getJobById jobs job_id).map u := by
  unfold getJobById JobPosting.update
  exact findq_map_upd _ u (fun j h => by rw [hid j]; exact h) jobs

/-- Looking an application up after the status UPDATE returns the row
with the new status columns. -/
theorem getAppById_after_status (apps : List App) (app_id : Int)
    (status message : String) (now : Int) :
    getAppById (Application.update_status apps app_id status message now).1 app_id =
      (getAppById apps app_id).map (fun a =>
        { a with status := some status, response_message := some message,
                 response_date := some now }) := by
  unfold getAppById Application.update_status
  exact findq_map_upd (fun a => a.id == app_id)
    (fun a => { a with status := some status, response_message := some message,
                       response_date := some now })
    (fun a h => h) apps

/-- Full behaviour of update_job_on_acceptance when the job is found and
the employer owns it: the hired_count UPDATE runs, the call reports
success, and the applications table is untouched. -/
theorem update_job_on_acceptance_found (db : DB)
    (job_id employer_id now : Int) (job : Job)
    (hfind : getJobById db.jobs job_id = some job)
    (hown : strOfOptInt job.user_id = toString employer_id) :
    JobStatusManager.update_job_on_acceptance db job_id employer_id now =
      (⟨(JobPosting.update db.jobs job_id
           (acceptUpdateData (job.hired_count.getD 0 + 1)
             (job.required_candidates.getD 1) now)).1,
        db.apps⟩,
       true,
       if job.required_candidates.getD 1 ≤ job.hired_count.getD 0 + 1 then
         "Job post automatically closed (all " ++
           toString (job.required_candidates.getD 1) ++ " positions filled)."
       else
         toString (job.required_candidates.getD 1 - (job.hired_count.getD 0 + 1)) ++
           " more position(s) needed.") := by
  have hrc : 0 < ((db.jobs.filter (fun j => j.id == job_id)).length) :=
    filter_length_pos_of_findq _ _ _ hfind
  simp only [JobStatusManager.update_job_on_acceptance, hfind, hown,
    bne_self_eq_false, Bool.false_eq_true, if_false, JobPosting.update]
  rw [if_pos hrc]
  split <;> rfl

/-- Full behaviour of JobManager.accept_application when the application
exists and the job is found and owned: application set to accepted, job
updated, success reported. -/
theorem jm_accept_application_found (db : DB)
    (application_id job_id employer_id now : Int) (job : Job) (a : App)
    (happ : getAppById db.apps application_id = some a)
    (hfind : getJobById db.jobs job_id = some job)
    (hown : strOfOptInt job.user_id = toString employer_id) :
    JobManager.accept_application db application_id job_id employer_id now =
      (⟨(JobPosting.update db.jobs job_id
           (acceptUpdateData (job.hired_count.getD 0 + 1)
             (job.required_candidates.getD 1) now)).1,
        (Application.update_status db.apps application_id "accepted" "" now).1⟩,
       true,
       if job.required_candidates.getD 1 ≤ job.hired_count.getD 0 + 1 then
         "Application accepted! Job post automatically closed (all " ++
           toString (job.required_candidates.getD 1) ++ " positions filled)."
       else
         "Application accepted! " ++
           toString (job.required_candidates.getD 1 - (job.hired_count.getD 0 + 1)) ++
           " more position(s) needed.") := by
  have harc : 0 < ((db.apps.filter (fun x => x.id == application_id)).length) :=
    filter_length_pos_of_findq _ _ _ happ
  have harc0 :
      (((db.apps.filter (fun x => x.id == application_id)).length) == 0) = false :=
    beq_eq_false_iff_ne.mpr (Nat.pos_iff_ne_zero.mp harc)
  have hjrc : 0 < ((db.jobs.filter (fun j => j.id == job_id)).length) :=
    filter_length_pos_of_findq _ _ _ hfind
  simp only [JobManager.accept_application, Application.update_status,
    harc0, Bool.false_eq_true, if_false]
  simp only [show
      getJobById
        (DB.mk db.jobs
          (db.apps.map (fun x =>
            if x.id == application_id then
              { x with status := some "accepted", response_message := some "",
                       response_date := some now }
            else x))).jobs job_id = some job from hfind,
    hown, bne_self_eq_false, Bool.false_eq_true, if_false, JobPosting.update]
  rw [if_pos hjrc]
  split <;> rfl

/-- ApplicationService.update_status succeeds when the id is positive,
the status is accepted, and the application row exists. -/
theorem as_update_status_accepted (db : DB) (app_id now : Int) (a : App)
    (happ : getAppById db.apps app_id = some a) (hpos : 0 < app_id) :
    ApplicationService.update_status db app_id "accepted" "" now =
      (⟨db.jobs, (Application.update_status db.apps app_id "accepted" "" now).1⟩,
       true) := by
  have harc : 0 < ((db.apps.filter (fun x => x.id == app_id)).length) :=
    filter_length_pos_of_findq _ _ _ happ
  have hv : validate_status_update app_id "accepted" = true := by
    unfold validate_status_update
    rw [decide_eq_true hpos]
    rfl
  simp only [ApplicationService.update_status, hv, Bool.not_true,
    Bool.false_eq_true, if_false, Application.update_status,
    decide_eq_true harc]

/-- Full behaviour of ApplicationService.accept_application when explicit
positive ids are supplied, the application exists, and the job is found
and owned by the employer. -/
theorem as_accept_application_found (db : DB)
    (app_id job_id employer_id now : Int) (job : Job) (a : App)
    (happ : getAppById db.apps app_id = some a)
    (hfind : getJobById db.jobs job_id = some job)
    (hown : strOfOptInt job.user_id = toString employer_id)
    (hpa : 0 < app_id) (hpj : 0 < job_id) (hne : employer_id ≠ 0) :
    ApplicationService.accept_application db app_id
        (some job_id) (some employer_id) now =
      (⟨(JobPosting.update db.jobs job_id
           (acceptUpdateData (job.hired_count.getD 0 + 1)
             (job.required_candidates.getD 1) now)).1,
        (Application.update_status db.apps app_id "accepted" "" now).1⟩,
       true,
       "Application accepted! " ++
         (if job.required_candidates.getD 1 ≤ job.hired_count.getD 0 + 1 then
            "Job post automatically closed (all " ++
              toString (job.required_candidates.getD 1) ++ " positions filled)."
          else
            toString (job.required_candidates.getD 1 - (job.hired_count.getD 0 + 1)) ++
              " more position(s) needed.")) := by
  have htj : truthyOptInt (some job_id) = true := by
    simp [truthyOptInt]
    omega
  have hte : truthyOptInt (some employer_id) = true := by
    simpa [truthyOptInt] using hne
  have hvp : validate_job_update_params app_id (some job_id) (some employer_id) = true := by
    unfold validate_job_update_params
    simp [hpa, hpj]
  have hus := as_update_status_accepted db app_id now a happ hpa
  have hfind2 :
      getJobById
        (DB.mk db.jobs
          (Application.update_status db.apps app_id "accepted" "" now).1).jobs
        job_id = some job := hfind
  have hjob := update_job_on_acceptance_found
    (DB.mk db.jobs (Application.update_status db.apps app_id "accepted" "" now).1)
    job_id employer_id now job hfind2 hown
  simp only [ApplicationService.accept_application, htj, hte, Bool.not_true,
    Bool.false_or, Bool.or_self, Bool.false_eq_true, if_false, hvp, hus, hjob]
  rfl

/-- Derived field facts about the acceptance update dict, phrased through
the dict.get defaults that the second acceptance run uses. -/
theorem acceptUpdateData_getD (n r now : Int) (j : Job) :
    (acceptUpdateData n r now j).hired_count.getD 0 = n ∧
    (acceptUpdateData n r now j).required_candidates.getD 1 = j.required_candidates.getD 1 ∧
    strOfOptInt (acceptUpdateData n r now j).user_id = strOfOptInt j.user_id := by
  obtain ⟨_, h2, h3, h4⟩ := acceptUpdateData_fields n r now j
  rw [h4, h3, h2]
  exact ⟨rfl, rfl, rfl⟩

/-- Post-state of a successful update_job_on_acceptance: success flag,
untouched applications, and the looked-up job row with the update dict
applied. -/
theorem ujoa_post (db : DB) (job_id employer_id now : Int) (job : Job)
    (hfind : getJobById db.jobs job_id = some job)
    (hown : strOfOptInt job.user_id = toString employer_id) :
    (JobStatusManager.update_job_on_acceptance db job_id employer_id now).2.1 = true ∧
    (JobStatusManager.update_job_on_acceptance db job_id employer_id now).1.apps = db.apps ∧
    getJobById
        (JobStatusManager.update_job_on_acceptance db job_id employer_id now).1.jobs
        job_id =
      some (acceptUpdateData (job.hired_count.getD 0 + 1)
        (job.required_candidates.getD 1) now job) := by
  rw [update_job_on_acceptance_found db job_id employer_id now job hfind hown]
  refine ⟨rfl, rfl, ?_⟩
  show getJobById
      (JobPosting.update db.jobs job_id
        (acceptUpdateData (job.hired_count.getD 0 + 1)
          (job.required_candidates.getD 1) now)).1 job_id = _
  rw [getJobById_after_update db.jobs job_id _
    (fun j => (acceptUpdateData_fields _ _ _ j).1), hfind]
  rfl

/-- Post-state of a successful JobManager.accept_application: success
flag, application marked accepted, and the job row with the update dict
applied. -/
theorem jm_accept_post (db : DB)
    (application_id job_id employer_id now : Int) (job : Job) (a : App)
    (happ : getAppById db.apps application_id = some a)
    (hfind : getJobById db.jobs job_id = some job)
    (hown : strOfOptInt job.user_id = toString employer_id) :
    (JobManager.accept_application db application_id job_id employer_id now).2.1 = true ∧
    getAppById
        (JobManager.accept_application db application_id job_id employer_id now).1.apps
        application_id =
      some { a with status := some "accepted", response_message := some "",
                    response_date := some now } ∧
    getJobById
        (JobManager.accept_application db application_id job_id employer_id now).1.jobs
        job_id =
      some (acceptUpdateData (job.hired_count.getD 0 + 1)
        (job.required_candidates.getD 1) now job) := by
  rw [jm_accept_application_found db application_id job_id employer_id now job a
    happ hfind hown]
  refine ⟨rfl, ?_, ?_⟩
  · show getAppById
        (Application.update_status db.apps application_id "accepted" "" now).1
        application_id = _
    rw [getAppById_after_status, happ]
    rfl
  · show getJobById
        (JobPosting.update db.jobs job_id
          (acceptUpdateData (job.hired_count.getD 0 + 1)
            (job.required_candidates.getD 1) now)).1 job_id = _
    rw [getJobById_after_update db.jobs job_id _
      (fun j => (acceptUpdateData_fields _ _ _ j).1), hfind]
    rfl

/-- Post-state of a successful ApplicationService.accept_application with
explicit ids: success flag, application marked accepted, and the job row
with the update dict applied. -/
theorem as_accept_post (db : DB)
    (app_id job_id employer_id now : Int) (job : Job) (a : App)
    (happ : getAppById db.apps app_id = some a)
    (hfind : getJobById db.jobs job_id = some job)
    (hown : strOfOptInt job.user_id = toString employer_id)
    (hpa : 0 < app_id) (hpj : 0 < job_id) (hne : employer_id ≠ 0) :
    (ApplicationService.accept_application db app_id
        (some job_id) (some employer_id) now).2.1 = true ∧
    getAppById
        (ApplicationService.accept_application db app_id
          (some job_id) (some employer_id) now).1.apps app_id =
      some { a with status := some "accepted", response_message := some "",
                    response_date := some now } ∧
    getJobById
        (ApplicationService.accept_application db app_id
          (some job_id) (some employer_id) now).1.jobs job_id =
      some (acceptUpdateData (job.hired_count.getD 0 + 1)
        (job.required_candidates.getD 1) now job) := by
  rw [as_accept_application_found db app_id job_id employer_id now job a
    happ hfind hown hpa hpj hne]
  refine ⟨rfl, ?_, ?_⟩
  · show getAppById
        (Application.update_status db.apps app_id "accepted" "" now).1 app_id = _
    rw [getAppById_after_status, happ]
    rfl
  · show getJobById
        (JobPosting.update db.jobs job_id
          (acceptUpdateData (job.hired_count.getD 0 + 1)
            (job.required_candidates.getD 1) now)).1 job_id = _
    rw [getJobById_after_update db.jobs job_id _
      (fun j => (acceptUpdateData_fields _ _ _ j).1), hfind]
    rfl

/-!
Claim theorems.
-/

/-- C1: when an application acceptance goes through (either
JobStatusManager.update_job_on_acceptance or
JobManager.accept_application, with the job found and owned by the
given employer), the job's hired_count becomes its previous value plus
one, and exactly when that new count reaches required_candidates the
posting is additionally auto-closed (is_closed and auto_closed set to
True and closed_date set); otherwise only hired_count changes. -/
theorem acceptance_increments_hired_and_autocloses (db : DB)
    (application_id job_id employer_id now : Int) (job : Job) (a : App)
    (hfind : getJobById db.jobs job_id = some job)
    (hown : strOfOptInt job.user_id = toString employer_id)
    (happ : getAppById db.apps application_id = some a) :
    (JobStatusManager.update_job_on_acceptance db job_id employer_id now).2.1 = true ∧
    getJobById
        (JobStatusManager.update_job_on_acceptance db job_id employer_id now).1.jobs
        job_id =
      some (if job.required_candidates.getD 1 ≤ job.hired_count.getD 0 + 1 then
              { job with hired_count := some (job.hired_count.getD 0 + 1),
                         is_closed := some true, auto_closed := some true,
                         closed_date := some now }
            else
              { job with hired_count := some (job.hired_count.getD 0 + 1) }) ∧
    (JobManager.accept_application db application_id job_id employer_id now).2.1 = true ∧
    getJobById
        (JobManager.accept_application db application_id job_id employer_id now).1.jobs
        job_id =
      some (if job.required_candidates.getD 1 ≤ job.hired_count.getD 0 + 1 then
              { job with hired_count := some (job.hired_count.getD 0 + 1),
                         is_closed := some true, auto_closed := some true,
                         closed_date := some now }
            else
              { job with hired_count := some (job.hired_count.getD 0 + 1) }) := by
  obtain ⟨hu1, _, hu3⟩ := ujoa_post db job_id employer_id now job hfind hown
  obtain ⟨hm1, _, hm3⟩ :=
    jm_accept_post db application_id job_id employer_id now job a happ hfind hown
  exact ⟨hu1, hu3, hm1, hm3⟩

/-- C2: the hiring-count update is not idempotent.  Running
update_job_on_acceptance (or ApplicationService.accept_application, for
the same application id) twice, with both runs succeeding, leaves
hired_count at its original value plus two; nothing checks whether the
application was already accepted. -/
theorem double_acceptance_double_increment (db : DB)
    (app_id job_id employer_id now1 now2 : Int) (job : Job) (a : App)
    (hfind : getJobById db.jobs job_id = some job)
    (hown : strOfOptInt job.user_id = toString employer_id)
    (happ : getAppById db.apps app_id = some a)
    (hpa : 0 < app_id) (hpj : 0 < job_id) (hne : employer_id ≠ 0) :
    ((JobStatusManager.update_job_on_acceptance db job_id employer_id now1).2.1 = true ∧
     (JobStatusManager.update_job_on_acceptance
        (JobStatusManager.update_job_on_acceptance db job_id employer_id now1).1
        job_id employer_id now2).2.1 = true ∧
     ∃ j2, getJobById
         (JobStatusManager.update_job_on_acceptance
           (JobStatusManager.update_job_on_acceptance db job_id employer_id now1).1
           job_id employer_id now2).1.jobs job_id = some j2 ∧
       j2.hired_count = some (job.hired_count.getD 0 + 2)) ∧
    ((ApplicationService.accept_application db app_id
        (some job_id) (some employer_id) now1).2.1 = true ∧
     (ApplicationService.accept_application
        (ApplicationService.accept_application db app_id
          (some job_id) (some employer_id) now1).1
        app_id (some job_id) (some employer_id) now2).2.1 = true ∧
     ∃ j2, getJobById
         (ApplicationService.accept_application
           (ApplicationService.accept_application db app_id
             (some job_id) (some employer_id) now1).1
           app_id (some job_id) (some employer_id) now2).1.jobs job_id = some j2 ∧
       j2.hired_count = some (job.hired_count.getD 0 + 2)) := by
  obtain ⟨g1, g2, g3⟩ := acceptUpdateData_getD (job.hired_count.getD 0 + 1)
    (job.required_candidates.getD 1) now1 job
  have hown1 : strOfOptInt (acceptUpdateData (job.hired_count.getD 0 + 1)
      (job.required_candidates.getD 1) now1 job).user_id = toString employer_id :=
    g3.trans hown
  have hsum : job.hired_count.getD 0 + 1 + 1 = job.hired_count.getD 0 + 2 := by ring
  constructor
  · obtain ⟨p11, _, p13⟩ := ujoa_post db job_id employer_id now1 job hfind hown
    obtain ⟨p21, _, p23⟩ := ujoa_post
      (JobStatusManager.update_job_on_acceptance db job_id employer_id now1).1
      job_id employer_id now2 _ p13 hown1
    refine ⟨p11, p21, _, p23, ?_⟩
    rw [(acceptUpdateData_fields _ _ _ _).2.2.2, g1, hsum]
  · obtain ⟨q11, q12, q13⟩ :=
      as_accept_post db app_id job_id employer_id now1 job a happ hfind hown hpa hpj hne
    obtain ⟨q21, _, q23⟩ := as_accept_post
      (ApplicationService.accept_application db app_id
        (some job_id) (some employer_id) now1).1
      app_id job_id employer_id now2 _ _ q12 q13 hown1 hpa hpj hne
    refine ⟨q11, q21, _, q23, ?_⟩
    rw [(acceptUpdateData_fields _ _ _ _).2.2.2, g1, hsum]

/-- C8: JobManager.accept_application writes the application's status
before authorizing the job, so on the Job-not-found-or-unauthorized error
path the application has nevertheless been set to accepted. -/
theorem accept_application_mutates_before_authorization (db : DB)
    (application_id job_id employer_id now : Int) (a : App)
    (happ : getAppById db.apps application_id = some a)
    (hno : ∀ j, getJobById db.jobs job_id = some j →
       strOfOptInt j.user_id ≠ toString employer_id) :
    (JobManager.accept_application db application_id job_id employer_id now).2.1 = false ∧
    (JobManager.accept_application db application_id job_id employer_id now).2.2 =
      "Job not found or unauthorized" ∧
    getAppById
        (JobManager.accept_application db application_id job_id employer_id now).1.apps
        application_id =
      some { a with status := some "accepted", response_message := some "",
                    response_date := some now } := by
  have harc : 0 < ((db.apps.filter (fun x => x.id == application_id)).length) :=
    filter_length_pos_of_findq _ _ _ happ
  have harc0 :
      (((db.apps.filter (fun x => x.id == application_id)).length) == 0) = false :=
    beq_eq_false_iff_ne.mpr (Nat.pos_iff_ne_zero.mp harc)
  have hproj :
      (Application.update_status db.apps application_id "accepted" "" now).2 =
        (db.apps.filter (fun x => x.id == application_id)).length := rfl
  rcases hjc : getJobById db.jobs job_id with _ | j
  · simp only [JobManager.accept_application, hproj, harc0, Bool.false_eq_true,
      if_false, hjc]
    refine ⟨trivial, trivial, ?_⟩
    show getAppById
        (Application.update_status db.apps application_id "accepted" "" now).1
        application_id = _
    rw [getAppById_after_status, happ]
    rfl
  · have hbne : (strOfOptInt j.user_id != toString employer_id) = true :=
      bne_iff_ne.mpr (hno j hjc)
    simp only [JobManager.accept_application, hproj, harc0, Bool.false_eq_true,
      if_false, hjc, hbne, if_true]
    refine ⟨trivial, trivial, ?_⟩
    show getAppById
        (Application.update_status db.apps application_id "accepted" "" now).1
        application_id = _
    rw [getAppById_after_status, happ]
    rfl

/-- C10: determine_post_status is total and assigns exactly one status by
fixed precedence (deleted, then auto or manually closed, then filled,
then partially filled, then open); a deleted post is never reported open
and a closed post is never reported filled. -/
theorem determine_post_status_total_precedence (post : Job)
    (hired required : Int) :
    (post.status = some "deleted" →
       JobManager.determine_post_status post hired required = "deleted") ∧
    (post.status ≠ some "deleted" → post.is_closed.getD false = true →
       post.auto_closed.getD false = true →
       JobManager.determine_post_status post hired required = "auto_closed") ∧
    (post.status ≠ some "deleted" → post.is_closed.getD false = true →
       post.auto_closed.getD false = false →
       JobManager.determine_post_status post hired required = "manually_closed") ∧
    (post.status ≠ some "deleted" → post.is_closed.getD false = false →
       required ≤ hired →
       JobManager.determine_post_status post hired required = "filled") ∧
    (post.status ≠ some "deleted" → post.is_closed.getD false = false →
       hired < required → 0 < hired →
       JobManager.determine_post_status post hired required = "partially_filled") ∧
    (post.status ≠ some "deleted" → post.is_closed.getD false = false →
       hired < required → hired ≤ 0 →
       JobManager.determine_post_status post hired required = "open") ∧
    (JobManager.determine_post_status post hired required ∈
       (["deleted", "auto_closed", "manually_closed", "filled",
         "partially_filled", "open"] : List String)) ∧
    (post.status = some "deleted" →
       JobManager.determine_post_status post hired required ≠ "open") ∧
    (post.is_closed.getD false = true →
       JobManager.determine_post_status post hired required ≠ "filled") := by
  unfold JobManager.determine_post_status
  refine ⟨?_, ?_, ?_, ?_, ?_, ?_, ?_, ?_, ?_⟩
  · intro h
    simp [h]
  · intro h1 h2 h3
    simp [h1, h2, h3]
  · intro h1 h2 h3
    simp [h1, h2, h3]
  · intro h1 h2 h3
    simp [h1, h2, h3, not_lt.mpr h3]
  · intro h1 h2 h3 h4
    simp [h1, h2, not_le.mpr h3, h4]
  · intro h1 h2 h3 h4
    simp [h1, h2, not_le.mpr h3, not_lt.mpr h4]
  · split_ifs <;> simp
  · intro h
    simp [h]
  · intro h
    by_cases h1 : post.status == some "deleted"
    · simp [h1]
    · simp only [h1, h, Bool.false_eq_true, if_false, if_true]
      split <;> simp

/-- C4: can_apply_to_job reports Job not found for a missing job, a
filled position for a closed or fully hired job, a duplicate application
when one exists, and Can apply otherwise. -/
theorem can_apply_to_job_cases (db : DB) (job_id applicant_id : Int) :
    (getJobById db.jobs job_id = none →
       can_apply_to_job db job_id applicant_id = (false, "Job not found")) ∧
    (∀ job, getJobById db.jobs job_id = some job →
       (job.is_closed.getD false = true ∨
        job.required_candidates.getD 1 ≤ job.hired_count.getD 0) →
       can_apply_to_job db job_id applicant_id =
         (false, "This position has been filled")) ∧
    (∀ job, getJobById db.jobs job_id = some job →
       job.is_closed.getD false = false →
       job.hired_count.getD 0 < job.required_candidates.getD 1 →
       (∃ a, check_existing db.apps job_id applicant_id = some a) →
       can_apply_to_job db job_id applicant_id =
         (false, "You have already applied to this job")) ∧
    (∀ job, getJobById db.jobs job_id = some job →
       job.is_closed.getD false = false →
       job.hired_count.getD 0 < job.required_candidates.getD 1 →
       check_existing db.apps job_id applicant_id = none →
       can_apply_to_job db job_id applicant_id = (true, "Can apply")) := by
  refine ⟨?_, ?_, ?_, ?_⟩
  · intro h
    simp [can_apply_to_job, h]
  · intro job hj hfull
    rcases hfull with hc | hf
    · simp [can_apply_to_job, hj, hc]
    · simp [can_apply_to_job, hj, hf]
  · intro job hj hc hf ⟨a, ha⟩
    simp [can_apply_to_job, hj, hc, not_le.mpr hf, ha]
  · intro job hj hc hf ha
    simp [can_apply_to_job, hj, hc, not_le.mpr hf, ha]

/-- C9: validate_phone accepts exactly the strings whose digit characters
number ten, validate_aadhaar exactly those with twelve, both reject the
empty string, and letters mixed with the right number of digits are
accepted. -/
theorem digit_count_validation (s : String) :
    (validate_phone s = true ↔
       s ≠ "" ∧ (s.toList.filter Char.isDigit).length = 10) ∧
    (validate_aadhaar s = true ↔
       s ≠ "" ∧ (s.toList.filter Char.isDigit).length = 12) ∧
    validate_phone "" = false ∧
    validate_aadhaar "" = false ∧
    validate_phone "abc12345x67890" = true := by
  refine ⟨?_, ?_, by decide, by decide, by decide⟩
  · unfold validate_phone
    by_cases he : s = "" <;> simp [he]
  · unfold validate_aadhaar
    by_cases he : s = "" <;> simp [he]

/-- C3: offers are time-boxed to 24 hours.  add_default_fields gives an
offer without expires_at an expiry of creation time plus 24 hours and a
pending status when absent; is_offer_active compares now against
expires_at when present and parseable, falls back to offered_date plus
24 hours otherwise, and reports expired when both are unusable. -/
theorem offer_24_hour_window (o : Offer) (now : Int) :
    (o.expires_at = TimeField.absent →
       (OfferDataProcessor.add_default_fields o now).expires_at =
         TimeField.valid (now + 24 * 3600)) ∧
    (o.status = none →
       (OfferDataProcessor.add_default_fields o now).status = some "pending") ∧
    (∀ t, o.expires_at = TimeField.valid t →
       (JobOfferManager.is_offer_active o now = true ↔ now ≤ t)) ∧
    ((∀ t, o.expires_at ≠ TimeField.valid t) →
       ∀ t, o.offered_date = TimeField.valid t →
       (JobOfferManager.is_offer_active o now = true ↔ now ≤ t + 24 * 3600)) ∧
    ((∀ t, o.expires_at ≠ TimeField.valid t) →
       (∀ t, o.offered_date ≠ TimeField.valid t) →
       JobOfferManager.is_offer_active o now = false) := by
  refine ⟨?_, ?_, ?_, ?_, ?_⟩
  · intro h
    unfold OfferDataProcessor.add_default_fields
    by_cases h1 : o.status.isNone <;>
      by_cases h2 : o.offered_date == TimeField.absent <;>
        simp [h1, h2, h]
  · intro h
    unfold OfferDataProcessor.add_default_fields
    rw [h]
    by_cases h2 : o.offered_date == TimeField.absent <;>
      by_cases h3 : o.expires_at == TimeField.absent <;>
        simp [h2, h3]
  · intro t h
    unfold JobOfferManager.is_offer_active
    rw [h]
    simp
  · intro hnv t h
    unfold JobOfferManager.is_offer_active
    rcases hx : o.expires_at with _ | _ | t2
    · rw [h]
      simp
    · rw [h]
      simp
    · exact absurd hx (hnv t2)
  · intro hnv hno
    unfold JobOfferManager.is_offer_active
    rcases hx : o.expires_at with _ | _ | t2
    · rcases hy : o.offered_date with _ | _ | t3
      · rfl
      · rfl
      · exact absurd hy (hno t3)
    · rcases hy : o.offered_date with _ | _ | t3
      · rfl
      · rfl
      · exact absurd hy (hno t3)
    · exact absurd hx (hnv t2)

/-- C5: every row produced by get_employer_posts_with_applications
excludes deleted posts unless include_deleted, carries exactly the
applications whose job_id renders equal to the post id, counts them, and
has remaining_slots equal to max 0 of required minus hired, hence never
negative. -/
theorem employer_posts_with_applications_shape (db : DB)
    (employer_id : Int) (include_deleted : Bool) (r : PostWithApps)
    (hr : r ∈ JobManager.get_employer_posts_with_applications db
            employer_id include_deleted) :
    (include_deleted = false → r.post.status.getD "active" ≠ "deleted") ∧
    r.applications =
      db.apps.filter (fun a => strOfOptInt a.job_id == toString r.post.id) ∧
    r.application_count = r.applications.length ∧
    r.remaining_slots =
      max 0 (r.post.required_candidates.getD 1 - r.post.hired_count.getD 0) ∧
    0 ≤ r.remaining_slots := by
  simp only [JobManager.get_employer_posts_with_applications,
    List.mem_map] at hr
  obtain ⟨p, hp, hrp⟩ := hr
  subst hrp
  refine ⟨?_, rfl, rfl, rfl, le_max_left 0 _⟩
  intro hinc
  rw [hinc] at hp
  simp only [Bool.false_eq_true, if_false, List.mem_filter] at hp
  have := hp.2
  simpa using this

/-- C6: an application's status stays within pending, accepted, rejected.
save_application stores status pending when the caller supplies none, and
update_status refuses (returning False, without writing) a status outside
that set or a non-positive application id. -/
theorem application_status_stays_in_domain (db : DB) (d : AppData)
    (app_id : Int) (status message : String) (now new_id : Int) :
    (validate_application_data d = true → d.status = none →
       ∃ row : App,
         (ApplicationService.save_application db d now new_id).1.apps =
           db.apps ++ [row] ∧ row.status = some "pending") ∧
    ((status ∉ (["pending", "accepted", "rejected"] : List String) ∨ app_id ≤ 0) →
       ApplicationService.update_status db app_id status message now =
         (db, false)) := by
  constructor
  · intro hv hs
    unfold ApplicationService.save_application
    rw [hv]
    simp only [Bool.not_true, Bool.false_eq_true, if_false]
    refine ⟨_, rfl, ?_⟩
    unfold prepare_application_data sanitize_application_data
    rw [hs]
    simp only [Option.map_none', Option.isNone_none, if_true]
    split <;> rfl
  · intro h
    have hv : validate_status_update app_id status = false := by
      unfold validate_status_update
      rcases h with h | h
      · have hc : (["pending", "accepted", "rejected"].contains status) = false := by
          simpa using h
        rw [hc, Bool.and_false]
      · simp [decide_eq_false (not_lt.mpr h)]
    unfold ApplicationService.update_status
    rw [hv]
    rfl

/-- C7: authentication matches by equality only.  authenticate returns a
user exactly when the role is job or hire, identifier and password are
non-empty, and the first user in list order having that role and exact
password whose lower-cased name equals the lower-cased identifier or
whose phone equals the identifier exactly is that user; otherwise it
returns None. -/
theorem authenticate_equality_matching (users : List UserR)
    (identifier password role : String) (u : UserR) :
    authenticate users identifier password role = some u ↔
      identifier ≠ "" ∧ password ≠ "" ∧ (role = "job" ∨ role = "hire") ∧
      (users.filter (fun v => v.role == role && v.password == password)).find?
        (fun v => pyLower identifier == pyLower (v.name.getD "") ||
                  identifier == v.phone.getD "") = some u := by
  have hval : validate_credentials identifier password role = true ↔
      (identifier ≠ "" ∧ password ≠ "" ∧ (role = "job" ∨ role = "hire")) := by
    unfold validate_credentials
    have hj : ("job" : String) ≠ "" := by decide
    have hh : ("hire" : String) ≠ "" := by decide
    constructor
    · intro h
      simp only [Bool.and_eq_true, Bool.not_eq_true', beq_eq_false_iff_ne,
        Bool.or_eq_true, beq_iff_eq] at h
      exact ⟨h.1.1.1, h.1.1.2, h.2⟩
    · intro ⟨h1, h2, h3⟩
      have h4 : role ≠ "" := by
        rcases h3 with h3 | h3 <;> rw [h3] <;> assumption
      simp only [Bool.and_eq_true, Bool.not_eq_true', beq_eq_false_iff_ne,
        Bool.or_eq_true, beq_iff_eq]
      exact ⟨⟨⟨h1, h2⟩, h4⟩, h3⟩
  by_cases hv : validate_credentials identifier password role = true
  · unfold authenticate
    rw [hv]
    simp only [Bool.not_true, Bool.false_eq_true, if_false]
    unfold find_users_by_role_and_password match_user_by_identifier
    by_cases hm : (users.filter
        (fun v => v.role == role && v.password == password)).isEmpty
    · rw [if_pos hm]
      rw [List.isEmpty_iff] at hm
      rw [hm]
      simp [hval.mp hv]
    · rw [if_neg hm]
      constructor
      · intro h
        exact ⟨(hval.mp hv).1, (hval.mp hv).2.1, (hval.mp hv).2.2, h⟩
      · intro ⟨_, _, _, h⟩
        exact h
  · unfold authenticate
    have hv0 : validate_credentials identifier password role = false := by
      simpa using hv
    rw [hv0]
    simp only [Bool.not_false, if_true]
    constructor
    · intro h
      exact Option.noConfusion h
    · intro ⟨h1, h2, h3, _⟩
      exact absurd (hval.mpr ⟨h1, h2, h3⟩) hv

/-!
Concrete sample rows used by the witnesses.
-/

/-- Sample job posting: employer 7, two positions, nobody hired yet. -/
def jobW : Job :=
  { id := 1, user_id := some 7, hired_count := some 0,
    required_candidates := some 2, is_closed := some false,
    auto_closed := some false, status := some "active", closed_date := none }

/-- Sample pending application of seeker 9 to the sample job. -/
def appW : App :=
  { id := 5, job_id := some 1, employer_id := some 7, applicant_id := some 9,
    status := some "pending", response_message := none, response_date := none,
    applied_date := some 0 }

/-- Sample store holding the sample job and application. -/
def dbW : DB := { jobs := [jobW], apps := [appW] }

/-- Sample offer with no status, offered_date, or expires_at supplied. -/
def oW : Offer :=
  { status := none, offered_date := TimeField.absent,
    expires_at := TimeField.absent }

/-- Sample application input dict with no status supplied. -/
def dW : AppData :=
  { job_id := some 1, employer_id := some 7, applicant_id := some 9,
    status := none, applied_date := none }

/-- Sample user row for the authentication witness. -/
def uW : UserR :=
  { id := 1, name := some "Alice", phone := some "9876543210",
    password := "Passw0rd", role := "job" }

/-- Enriched row that get_employer_posts_with_applications produces for
the sample store. -/
def rW : PostWithApps :=
  { post := jobW, applications := [appW], application_count := 1,
    hired_count := 0, required_candidates := 2, remaining_slots := 2,
    is_closed := false, post_status := "open" }

/-- Witness for C1 at the sample store: the hypotheses hold and accepting
into job 1 leaves it with one hire and still open. -/
theorem acceptance_increments_witness :
    getJobById dbW.jobs 1 = some jobW ∧
    getAppById dbW.apps 5 = some appW ∧
    getJobById (JobStatusManager.update_job_on_acceptance dbW 1 7 100).1.jobs 1 =
      some { jobW with hired_count := some 1 } :=
  ⟨rfl, rfl,
   (acceptance_increments_hired_and_autocloses dbW 5 1 7 100 jobW appW
     rfl rfl rfl).2.1⟩

/-- Witness for C2 at the sample store: two acceptances leave job 1 with
hired_count two. -/
theorem double_acceptance_witness :
    (0 : Int) < 5 ∧
    ∃ j2, getJobById
        (JobStatusManager.update_job_on_acceptance
          (JobStatusManager.update_job_on_acceptance dbW 1 7 100).1
          1 7 200).1.jobs 1 = some j2 ∧
      j2.hired_count = some (jobW.hired_count.getD 0 + 2) :=
  ⟨by decide,
   (double_acceptance_double_increment dbW 5 1 7 100 200 jobW appW
     rfl rfl rfl (by decide) (by decide) (by decide)).1.2.2⟩

/-- Witness for C3 at the sample offer: both defaults are filled in. -/
theorem offer_window_witness :
    (OfferDataProcessor.add_default_fields oW 0).expires_at =
      TimeField.valid (0 + 24 * 3600) ∧
    (OfferDataProcessor.add_default_fields oW 0).status = some "pending" :=
  ⟨(offer_24_hour_window oW 0).1 rfl, (offer_24_hour_window oW 0).2.1 rfl⟩

/-- Witness for C4 at the sample store: seeker 9 already applied. -/
theorem can_apply_witness :
    can_apply_to_job dbW 1 9 = (false, "You have already applied to this job") :=
  (can_apply_to_job_cases dbW 1 9).2.2.1 jobW rfl rfl (by decide) ⟨appW, rfl⟩

/-- Witness for C5 at the sample store: the produced row is as described
and its remaining_slots is non-negative. -/
theorem employer_posts_witness :
    rW ∈ JobManager.get_employer_posts_with_applications dbW 7 false ∧
    0 ≤ rW.remaining_slots :=
  ⟨by decide,
   (employer_posts_with_applications_shape dbW 7 false rW (by decide)).2.2.2.2⟩

/-- Witness for C6 at the sample input: the saved row gets status pending
and an invalid status is refused without a write. -/
theorem application_status_witness :
    (∃ row : App,
       (ApplicationService.save_application dbW dW 0 6).1.apps =
         dbW.apps ++ [row] ∧ row.status = some "pending") ∧
    ApplicationService.update_status dbW 5 "bogus" "" 0 = (dbW, false) :=
  ⟨(application_status_stays_in_domain dbW dW 5 "bogus" "" 0 6).1 rfl rfl,
   (application_status_stays_in_domain dbW dW 5 "bogus" "" 0 6).2
     (Or.inl (by decide))⟩

/-- Witness for C7 at the sample user list: a case-insensitive name match
with exact password and role authenticates. -/
theorem authenticate_witness :
    authenticate [uW] "alice" "Passw0rd" "job" = some uW :=
  (authenticate_equality_matching [uW] "alice" "Passw0rd" "job" uW).mpr
    ⟨by decide, by decide, Or.inl rfl, by decide⟩

/-- Witness for C8 at the sample store with the wrong employer id 8: the
call fails as unauthorized yet the application is already accepted. -/
theorem mutate_before_authorize_witness :
    getAppById dbW.apps 5 = some appW ∧
    getAppById (JobManager.accept_application dbW 5 1 8 100).1.apps 5 =
      some { appW with status := some "accepted", response_message := some "",
                       response_date := some 100 } ∧
    (JobManager.accept_application dbW 5 1 8 100).2.2 =
      "Job not found or unauthorized" := by
  have hno : ∀ j, getJobById dbW.jobs 1 = some j →
      strOfOptInt j.user_id ≠ toString (8 : Int) := by
    intro j hj
    rw [show getJobById dbW.jobs 1 = some jobW from rfl] at hj
    cases hj
    decide
  have h := accept_application_mutates_before_authorization dbW 5 1 8 100 appW rfl hno
  exact ⟨rfl, h.2.2, h.2.1⟩

/-- Witness for C9: a string of letters mixed with ten digits passes the
phone check. -/
theorem digit_validation_witness : validate_phone "abc12345x67890" = true :=
  (digit_count_validation "abc12345x67890").2.2.2.2

/-- Witness for C10 at the sample job: zero hires of two required with no
close flags reports open. -/
theorem post_status_witness :
    JobManager.determine_post_status jobW 0 2 = "open" :=
  (determine_post_status_total_precedence jobW 0 2).2.2.2.2.2.1
    (by decide) rfl (by decide) (by decide)
